import Mathlib

/-!
# GrainVDB core — shallow embedding and verification

The repository ships only the public interface `src/include/gv_core.h`
(context creation, `gv1_data_feed`, `gv1_manifold_fold`, `gv1_topology_audit`,
teardown); no implementation is present in the repository.  The behaviour of
the four operations is therefore modelled from the specification (spec.md),
which reconstructs the core the interface implies.  Vector components
(`float32` in the header) are modelled as rationals, ids (`uint64_t`) as
naturals with the 64-bit maximum as the documented sentinel.
-/

namespace GrainVDB

/-- `float32` scalar values, modelled as rationals. -/
abbrev Scalar := ℚ

/-- A vector: a fixed-length sequence of `rank` scalars. -/
abbrev Vec := List Scalar

/-- The error taxonomy of spec.md §6/§7. -/
inductive GvError
  | InvalidRank
  | AllocationFailure
  | DispatchFailure
  | InvalidReference
  | PreconditionViolation
deriving DecidableEq

/-- Modelled from the spec: the Manifold Store (§3, §4.1) — an ordered,
append-only sequence of rank-length vectors; each vector's id is its
ingestion-order index. -/
structure Manifold where
  rank : Nat
  vecs : List Vec
deriving DecidableEq

/-- `size()` — current vector count (§4.1). -/
def Manifold.size (m : Manifold) : Nat := m.vecs.length

/-- Modelled from the spec: the environment a context is bound to — device
capacity (growth beyond it is an allocation failure, §4.1), the pluggable
phase-folding transform (§3, §9: no algorithmic definition is given, so it is
a parameter), whether the compute backend can execute kernels (§4.2), and the
dispatch wall-time model (§4.2 return value). -/
structure Config where
  memLimit : Nat
  foldFn : Vec → Vec
  dispatchOk : Bool
  lat : Nat → ℚ

/-- The `i`-th rank-length vector of a contiguous scalar buffer (§4.1:
"`count` vectors, each `rank` floats, contiguous"). -/
def takeVec (rank : Nat) (buf : List Scalar) (i : Nat) : Vec :=
  (buf.drop (i * rank)).take rank

/-- The `count` vectors carried by a contiguous ingest buffer. -/
def batchVecs (rank count : Nat) (buf : List Scalar) : List Vec :=
  (List.range count).map (takeVec rank buf)

/-- Modelled from the spec: `gv1_data_feed` / `ingest(buffer, count, fold)`
(§4.1).  Returns the new manifold and an optional error; every failure leaves
the returned manifold equal to the argument (no partial ingestion, §4.1, §7).
Preconditions `count > 0` and buffer length ≥ `count * rank` are checked; a
grow beyond the device capacity fails with `AllocationFailure`; otherwise the
(possibly folded) batch is appended in input order. -/
def gv1_data_feed (cfg : Config) (m : Manifold) (buf : List Scalar)
    (count : Nat) (fold : Bool) : Manifold × Option GvError :=
  if count = 0 ∨ buf.length < count * m.rank then
    (m, some .PreconditionViolation)
  else if cfg.memLimit < m.size + count then
    (m, some .AllocationFailure)
  else
    let batch := batchVecs m.rank count buf
    let stored := if fold then batch.map cfg.foldFn else batch
    ({ m with vecs := m.vecs ++ stored }, none)

/-- The maximum representable unsigned 64-bit value, the documented sentinel
id for unused result slots (§4.2). -/
def UINT64_MAX : Nat := 2 ^ 64 - 1

/-- Dot product of two scalar sequences (shorter one zero-extended). -/
def dot : Vec → Vec → Scalar
  | [], _ => 0
  | _, [] => 0
  | a :: as, b :: bs => a * b + dot as bs

/-- Modelled from the spec: the similarity score between probe and stored
vector (§4.2 leaves the exact formula open — "cosine similarity or normalized
dot product"); modelled as the dot product.  The ranking, dedup, coverage and
sentinel properties proved below do not depend on the choice. -/
def simScore (probe v : Vec) : Scalar := dot probe v

/-- Ranking order on (id, magnitude) pairs: higher magnitude first, ties by
lower id first (§4.2 "ties broken by lower id first").  Non-strict form, used
by the selection sort. -/
def rankLE (a b : Nat × Scalar) : Prop :=
  b.2 < a.2 ∨ (a.2 = b.2 ∧ a.1 ≤ b.1)

instance : DecidableRel rankLE := fun a b => by
  unfold rankLE; infer_instance

/-- Strict ranking order: strictly higher magnitude, or equal magnitude and
strictly lower id. -/
def rankLT (a b : Nat × Scalar) : Prop :=
  b.2 < a.2 ∨ (a.2 = b.2 ∧ a.1 < b.1)

/-- Every manifold id paired with its similarity score against the probe
(§4.2: score computed "between the probe and every stored vector"). -/
def scoredList (m : Manifold) (probe : Vec) : List (Nat × Scalar) :=
  (List.range m.size).map fun i => (i, simScore probe (m.vecs.getD i []))

/-- Modelled from the spec: the `min(top, size)` highest-scoring entries,
ties broken by lower id (§4.2).  Modelled as a stable sort by the ranking
order followed by a prefix take; the spec's partial-selection requirement is
a performance constraint with the same functional result. -/
def queryPairs (m : Manifold) (probe : Vec) (top : Nat) : List (Nat × Scalar) :=
  (List.insertionSort rankLE (scoredList m probe)).take top

/-- The documented sentinel for an unused result slot: id = maximum
representable unsigned 64-bit value, magnitude = 0 (§4.2). -/
def sentinelSlot : Nat × Scalar := (UINT64_MAX, 0)

/-- The caller-provided output buffers after a successful query: `top` slots,
the ranked pairs first, unused trailing slots at the sentinel (§4.2). -/
def queryBuffers (m : Manifold) (probe : Vec) (top : Nat) : List (Nat × Scalar) :=
  queryPairs m probe top ++
    List.replicate (top - (queryPairs m probe top).length) sentinelSlot

/-- Modelled from the spec: `gv1_manifold_fold` / `query(probe, top)` (§4.2).
Returns the filled output buffers and the dispatch latency.  An empty
manifold short-circuits to an empty result with zero latency, not an error;
otherwise the similarity kernel is dispatched, failing with
`DispatchFailure` when the backend cannot execute. -/
def gv1_manifold_fold (cfg : Config) (m : Manifold) (probe : Vec) (top : Nat) :
    Except GvError (List (Nat × Scalar) × ℚ) :=
  if m.size = 0 then .ok (queryBuffers m probe top, 0)
  else if cfg.dispatchOk then .ok (queryBuffers m probe top, cfg.lat m.size)
  else .error .DispatchFailure

/-- The ids of the true top-`M` manifold neighbours of the vector with id
`i`, under the same ranking order as a query (§4.3). -/
def auditTopM (m : Manifold) (i M : Nat) : List Nat :=
  ((List.insertionSort rankLE (scoredList m (m.vecs.getD i []))).take M).map
    Prod.fst

/-- Fraction of `nbrs` also present in the claimed set (§4.3 "neighborhood
density/overlap"). -/
def overlapFrac (claimed : List Nat) (nbrs : List Nat) : ℚ :=
  if nbrs.length = 0 then 1
  else ((nbrs.filter fun j => claimed.contains j).length : ℚ) / nbrs.length

/-- Modelled from the spec: the aggregate audit score — for each id in the
set, the overlap of its true top-M neighbours (M = min(count, size)) with the
supplied set, averaged (§4.3). -/
def auditScore (m : Manifold) (ids : List Nat) : ℚ :=
  if ids.length = 0 then 0
  else ((ids.map fun i =>
    overlapFrac ids (auditTopM m i (min ids.length m.size))).sum) / ids.length

/-- Modelled from the spec: `gv1_topology_audit` / `audit(ids, count)`
(§4.3), in state-passing form so that (absence of) state mutation is
explicit.  Precondition `count > 0` and a sufficient id buffer are checked;
any referenced id ≥ `size()` aborts the whole audit with `InvalidReference`
and no partial score (§4.3, §7); otherwise the consistency score is
computed. -/
def gv1_topology_audit (cfg : Config) (m : Manifold) (idBuf : List Nat)
    (count : Nat) : Manifold × Except GvError ℚ :=
  if count = 0 ∨ idBuf.length < count then
    (m, .error .PreconditionViolation)
  else if (idBuf.take count).any (fun i => decide (m.size ≤ i)) then
    (m, .error .InvalidReference)
  else if cfg.dispatchOk then
    (m, .ok (auditScore m (idBuf.take count)))
  else
    (m, .error .DispatchFailure)

/-- The five operations declared in `src/include/gv_core.h`. -/
inductive GvOp
  | ctxCreate
  | dataFeed
  | manifoldFold
  | topologyAudit
  | ctxDestroy
deriving DecidableEq

/-- The C return type of each operation, transcribed from the header:
`gv1_ctx_create` returns `gv1_state_t *` (a possibly-null handle),
`gv1_data_feed` returns `void`, `gv1_manifold_fold` returns `float`
(latency), `gv1_topology_audit` returns `float`, `gv1_ctx_destroy` returns
`void`. -/
def declaredRet : GvOp → Type
  | .ctxCreate => Option Nat
  | .dataFeed => Unit
  | .manifoldFold => Scalar
  | .topologyAudit => Scalar
  | .ctxDestroy => Unit

/-! ## Basic facts about the ranking order -/

instance : IsTotal (Nat × Scalar) rankLE := by
  constructor
  intro a b
  rcases lt_trichotomy a.2 b.2 with h | h | h
  · exact Or.inr (Or.inl h)
  · rcases Nat.le_total a.1 b.1 with hn | hn
    · exact Or.inl (Or.inr ⟨h, hn⟩)
    · exact Or.inr (Or.inr ⟨h.symm, hn⟩)
  · exact Or.inl (Or.inl h)

instance : IsTrans (Nat × Scalar) rankLE := by
  constructor
  intro a b c hab hbc
  rcases hab with hab | ⟨hab, hab'⟩
  · rcases hbc with hbc | ⟨hbc, _⟩
    · exact Or.inl (hbc.trans hab)
    · exact Or.inl (hbc ▸ hab)
  · rcases hbc with hbc | ⟨hbc, hbc'⟩
    · exact Or.inl (hab ▸ hbc)
    · exact Or.inr ⟨hab.trans hbc, hab'.trans hbc'⟩

/-- Non-strict rank order plus distinct ids gives the strict rank order. -/
theorem rankLT_of_rankLE_of_ne {a b : Nat × Scalar} (h : rankLE a b)
    (hne : a.1 ≠ b.1) : rankLT a b := by
  rcases h with h | ⟨h, h'⟩
  · exact Or.inl h
  · exact Or.inr ⟨h, lt_of_le_of_ne h' hne⟩

/-- The ids of the scored list are exactly `range size`. -/
theorem scoredList_map_fst (m : Manifold) (probe : Vec) :
    (scoredList m probe).map Prod.fst = List.range m.size := by
  simp [scoredList, Function.comp_def]

/-- The sorted scored list is a permutation of the scored list. -/
theorem sortedScored_perm (m : Manifold) (probe : Vec) :
    (List.insertionSort rankLE (scoredList m probe)).Perm (scoredList m probe) :=
  List.perm_insertionSort rankLE (scoredList m probe)

/-- The ids occurring in the full sorted scored list are a permutation of
`range size`. -/
theorem sortedScored_ids_perm (m : Manifold) (probe : Vec) :
    ((List.insertionSort rankLE (scoredList m probe)).map Prod.fst).Perm
      (List.range m.size) := by
  simpa [scoredList_map_fst] using (sortedScored_perm m probe).map Prod.fst

/-- The ids of the query result have no duplicates. -/
theorem queryPairs_ids_nodup (m : Manifold) (probe : Vec) (top : Nat) :
    ((queryPairs m probe top).map Prod.fst).Nodup := by
  have hperm := sortedScored_ids_perm m probe
  have hnd : ((List.insertionSort rankLE (scoredList m probe)).map
      Prod.fst).Nodup := hperm.nodup_iff.mpr (List.nodup_range m.size)
  have hsub : ((queryPairs m probe top).map Prod.fst).Sublist
      ((List.insertionSort rankLE (scoredList m probe)).map Prod.fst) := by
    unfold queryPairs
    exact (List.take_sublist top _).map Prod.fst
  exact hnd.sublist hsub

/-! ## Ingestion -/

/-- The manifold stored after a successful feed: the old vectors followed by
the (possibly folded) batch. -/
theorem data_feed_ok_vecs (cfg : Config) (m : Manifold) (buf : List Scalar)
    (count : Nat) (fold : Bool)
    (hok : (gv1_data_feed cfg m buf count fold).2 = none) :
    (gv1_data_feed cfg m buf count fold).1.vecs =
      m.vecs ++ (if fold then (batchVecs m.rank count buf).map cfg.foldFn
        else batchVecs m.rank count buf) := by
  by_cases h1 : count = 0 ∨ buf.length < count * m.rank
  · simp [gv1_data_feed, h1] at hok
  · by_cases h2 : cfg.memLimit < m.size + count
    · simp [gv1_data_feed, h1, h2] at hok
    · simp [gv1_data_feed, h1, h2]

/-- C1: for every ingested batch of `count` vectors, `size()` after the
ingest equals `size()` before plus `count`; the ids `[old_size,
old_size+count)` map to the (possibly folded) input vectors in input order;
and all previously stored vectors keep their ids and values. -/
theorem data_feed_appends (cfg : Config) (m : Manifold) (buf : List Scalar)
    (count : Nat) (fold : Bool)
    (hok : (gv1_data_feed cfg m buf count fold).2 = none) :
    (gv1_data_feed cfg m buf count fold).1.size = m.size + count ∧
    (∀ j, j < m.size →
      (gv1_data_feed cfg m buf count fold).1.vecs.getD j [] =
        m.vecs.getD j []) ∧
    (∀ i, i < count →
      (gv1_data_feed cfg m buf count fold).1.vecs.getD (m.size + i) [] =
        if fold then cfg.foldFn (takeVec m.rank buf i)
        else takeVec m.rank buf i) := by
  have hv := data_feed_ok_vecs cfg m buf count fold hok
  have hlen : (if fold then (batchVecs m.rank count buf).map cfg.foldFn
      else batchVecs m.rank count buf).length = count := by
    cases fold <;> simp [batchVecs]
  refine ⟨?_, ?_, ?_⟩
  · simp [Manifold.size, hv, hlen]
  · intro j hj
    rw [hv, List.getD_append _ _ _ _ hj]
  · intro i hi
    rw [hv, List.getD_append_right _ _ _ _ (Nat.le_add_right m.size i)]
    have hsub : m.size + i - m.vecs.length = i := by
      simp [Manifold.size]
    rw [hsub]
    have hilen : i < (if fold then (batchVecs m.rank count buf).map cfg.foldFn
        else batchVecs m.rank count buf).length := by rw [hlen]; exact hi
    rw [List.getD_eq_getElem _ _ hilen]
    cases fold <;> simp [batchVecs, hi]

/-- C6: whenever ingest fails with `AllocationFailure`, the manifold is left
completely unchanged — no partial ingestion, `size()` unaffected. -/
theorem data_feed_alloc_fail_unchanged (cfg : Config) (m : Manifold)
    (buf : List Scalar) (count : Nat) (fold : Bool)
    (hfail : (gv1_data_feed cfg m buf count fold).2 =
      some GvError.AllocationFailure) :
    (gv1_data_feed cfg m buf count fold).1 = m := by
  by_cases h1 : count = 0 ∨ buf.length < count * m.rank
  · simp [gv1_data_feed, h1]
  · by_cases h2 : cfg.memLimit < m.size + count
    · simp [gv1_data_feed, h1, h2]
    · simp [gv1_data_feed, h1, h2] at hfail

/-- Ingestion never changes the rank of the manifold. -/
theorem data_feed_rank (cfg : Config) (m : Manifold) (buf : List Scalar)
    (count : Nat) (fold : Bool) :
    (gv1_data_feed cfg m buf count fold).1.rank = m.rank := by
  unfold gv1_data_feed
  split
  · rfl
  · split <;> rfl

/-- A list map that fixes the whole list fixes each element, and
conversely. -/
theorem map_eq_self_iff {α : Type} (f : α → α) (l : List α) :
    l.map f = l ↔ ∀ x ∈ l, f x = x := by
  induction l with
  | nil => simp
  | cons a t ih =>
    simp only [List.map_cons, List.cons.injEq, List.mem_cons]
    constructor
    · rintro ⟨ha, ht⟩ x (hx | hx)
      · rw [hx]; exact ha
      · exact (ih.mp ht) x hx
    · intro h
      exact ⟨h a (Or.inl rfl), ih.mpr fun x hx => h x (Or.inr hx)⟩

/-- C8: ingesting the same batch once with the fold flag set and once with it
clear produces identical stored vectors exactly when the fold transform is
the identity on every vector of the batch. -/
theorem data_feed_fold_distinct (cfg : Config) (m : Manifold)
    (buf : List Scalar) (count : Nat)
    (hok : (gv1_data_feed cfg m buf count true).2 = none) :
    (gv1_data_feed cfg m buf count true).1 =
        (gv1_data_feed cfg m buf count false).1 ↔
      ∀ v ∈ batchVecs m.rank count buf, cfg.foldFn v = v := by
  have hok' : (gv1_data_feed cfg m buf count false).2 = none := by
    by_cases h1 : count = 0 ∨ buf.length < count * m.rank
    · simp [gv1_data_feed, h1] at hok
    · by_cases h2 : cfg.memLimit < m.size + count
      · simp [gv1_data_feed, h1, h2] at hok
      · simp [gv1_data_feed, h1, h2]
  have hv := data_feed_ok_vecs cfg m buf count true hok
  have hv' := data_feed_ok_vecs cfg m buf count false hok'
  simp only [if_true] at hv
  simp only [Bool.false_eq_true, if_false] at hv'
  have hext : ∀ a b : Manifold, a.rank = b.rank → a.vecs = b.vecs → a = b := by
    intro a b ha hb
    cases a; cases b; simp_all
  constructor
  · intro heq v hvmem
    have hvecs : (gv1_data_feed cfg m buf count true).1.vecs =
        (gv1_data_feed cfg m buf count false).1.vecs := by rw [heq]
    rw [hv, hv'] at hvecs
    have hmap := List.append_cancel_left hvecs
    exact (map_eq_self_iff cfg.foldFn (batchVecs m.rank count buf)).mp
      hmap v hvmem
  · intro hid
    have hmap : (batchVecs m.rank count buf).map cfg.foldFn =
        batchVecs m.rank count buf :=
      (map_eq_self_iff cfg.foldFn (batchVecs m.rank count buf)).mpr hid
    refine hext _ _ ?_ ?_
    · rw [data_feed_rank, data_feed_rank]
    · rw [hv, hv', hmap]

/-! ## Query engine -/

/-- C2: for every query, the returned NeighborResult sequence is strictly
ordered by the ranking order — magnitude descending, ties broken by lower id
first — and contains no duplicate ids. -/
theorem manifold_fold_sorted_nodup (m : Manifold) (probe : Vec) (top : Nat) :
    (queryPairs m probe top).Pairwise rankLT ∧
      ((queryPairs m probe top).map Prod.fst).Nodup := by
  have hnd := queryPairs_ids_nodup m probe top
  refine ⟨?_, hnd⟩
  have hsorted : (List.insertionSort rankLE (scoredList m probe)).Sorted
      rankLE := List.sorted_insertionSort rankLE _
  have htake : (queryPairs m probe top).Pairwise rankLE :=
    hsorted.sublist (List.take_sublist top _)
  have hne : (queryPairs m probe top).Pairwise fun a b => a.1 ≠ b.1 :=
    List.pairwise_map.mp hnd
  exact (htake.and hne).imp fun h => rankLT_of_rankLE_of_ne h.1 h.2

/-- C3: for every query with `top ≥ size()`, the result contains exactly
`size()` entries and its ids cover every manifold id exactly once. -/
theorem manifold_fold_full_coverage (m : Manifold) (probe : Vec) (top : Nat)
    (h : m.size ≤ top) :
    (queryPairs m probe top).length = m.size ∧
      ((queryPairs m probe top).map Prod.fst).Perm (List.range m.size) := by
  have hlen : (List.insertionSort rankLE (scoredList m probe)).length =
      m.size := by
    rw [List.length_insertionSort]
    simp [scoredList]
  have htake : queryPairs m probe top =
      List.insertionSort rankLE (scoredList m probe) := by
    unfold queryPairs
    exact List.take_of_length_le (by rw [hlen]; exact h)
  refine ⟨?_, ?_⟩
  · rw [htake, hlen]
  · rw [htake]
    exact sortedScored_ids_perm m probe

/-- C9: for every query where the manifold holds fewer than `top` vectors,
the trailing unused output slots are left at the documented sentinel —
id = maximum representable unsigned 64-bit value, magnitude = 0 — and the
buffers still span `top` slots. -/
theorem manifold_fold_sentinel_padding (m : Manifold) (probe : Vec)
    (top : Nat) (h : m.size < top) :
    (queryBuffers m probe top).length = top ∧
      (queryBuffers m probe top).drop m.size =
        List.replicate (top - m.size) sentinelSlot := by
  have hlen : (queryPairs m probe top).length = m.size := by
    unfold queryPairs
    rw [List.length_take, List.length_insertionSort]
    simp only [scoredList, List.length_map, List.length_range]
    omega
  constructor
  · unfold queryBuffers
    rw [List.length_append, List.length_replicate, hlen]
    omega
  · unfold queryBuffers
    rw [← hlen, List.drop_left]

/-- C5: every query against an empty manifold returns successfully (not an
error) with an all-sentinel (empty) result and zero latency. -/
theorem manifold_fold_empty (cfg : Config) (m : Manifold) (probe : Vec)
    (top : Nat) (h : m.size = 0) :
    gv1_manifold_fold cfg m probe top =
      Except.ok (List.replicate top sentinelSlot, 0) := by
  have hpairs : queryPairs m probe top = [] := by
    unfold queryPairs scoredList
    rw [h]
    simp
  have hbuf : queryBuffers m probe top = List.replicate top sentinelSlot := by
    unfold queryBuffers
    rw [hpairs]
    simp
  unfold gv1_manifold_fold
  rw [if_pos h, hbuf]

/-- C4: the query operation is deterministic — two calls with an identical
probe and identical top against an unchanged manifold yield identical
NeighborResult sequences, including the tie-break order. -/
theorem manifold_fold_deterministic (cfg : Config) (m m' : Manifold)
    (probe probe' : Vec) (top top' : Nat)
    (hm : m = m') (hp : probe = probe') (ht : top = top') :
    gv1_manifold_fold cfg m probe top = gv1_manifold_fold cfg m' probe' top' := by
  rw [hm, hp, ht]

/-! ## Topology audit -/

/-- C7: an audit whose supplied id set contains any id ≥ `size()` fails with
`InvalidReference`; the whole audit is aborted with no partial score and the
manifold is not mutated. -/
theorem topology_audit_invalid_reference (cfg : Config) (m : Manifold)
    (idBuf : List Nat) (count : Nat) (hc : count ≠ 0)
    (hlen : count ≤ idBuf.length)
    (hbad : ∃ i ∈ idBuf.take count, m.size ≤ i) :
    gv1_topology_audit cfg m idBuf count =
      (m, Except.error GvError.InvalidReference) := by
  have h1 : ¬(count = 0 ∨ idBuf.length < count) := by
    push_neg
    exact ⟨hc, hlen⟩
  have h2 : (idBuf.take count).any (fun i => decide (m.size ≤ i)) = true := by
    rcases hbad with ⟨i, hmem, hi⟩
    rw [List.any_eq_true]
    exact ⟨i, hmem, decide_eq_true hi⟩
  simp [gv1_topology_audit, h1, h2]

/-! ## Declared interface -/

/-- C10: the declared ingestion operation `gv1_data_feed` returns `void`; its
return channel carries exactly one value, so no ingestion failure (such as an
allocation failure) can be reported to the caller through it. -/
theorem data_feed_void_return :
    declaredRet GvOp.dataFeed = Unit ∧
      ∀ r r' : declaredRet GvOp.dataFeed, r = r' := by
  refine ⟨rfl, ?_⟩
  intro r r'
  exact rfl

/-! ## Concrete instantiations -/

/-- A concrete environment: capacity of four vectors, a non-identity fold
transform, a working backend, unit dispatch latency. -/
def cfgW : Config := ⟨4, fun v => 0 :: v, true, fun _ => 1⟩

/-- A concrete rank-2 manifold holding one vector. -/
def mW : Manifold := ⟨2, [[1, 2]]⟩

/-- A concrete rank-0 manifold holding two vectors. -/
def mzW : Manifold := ⟨0, [[], []]⟩

/-- A concrete empty rank-2 manifold. -/
def meW : Manifold := ⟨2, []⟩

/-- Witness for C1: a successful two-vector ingest into `mW`. -/
theorem data_feed_appends_witness :
    (gv1_data_feed cfgW mW [3, 4, 5, 6] 2 false).2 = none ∧
      ((gv1_data_feed cfgW mW [3, 4, 5, 6] 2 false).1.size = mW.size + 2 ∧
       (∀ j, j < mW.size →
         (gv1_data_feed cfgW mW [3, 4, 5, 6] 2 false).1.vecs.getD j [] =
           mW.vecs.getD j []) ∧
       (∀ i, i < 2 →
         (gv1_data_feed cfgW mW [3, 4, 5, 6] 2 false).1.vecs.getD
             (mW.size + i) [] =
           takeVec mW.rank [3, 4, 5, 6] i)) :=
  ⟨by decide, data_feed_appends cfgW mW [3, 4, 5, 6] 2 false (by decide)⟩

/-- Witness for C6: a four-vector ingest that overflows the capacity of
`cfgW` and leaves `mW` unchanged. -/
theorem data_feed_alloc_fail_witness :
    (gv1_data_feed cfgW mW [3, 4, 5, 6, 7, 8, 9, 10] 4 false).2 =
        some GvError.AllocationFailure ∧
      (gv1_data_feed cfgW mW [3, 4, 5, 6, 7, 8, 9, 10] 4 false).1 = mW :=
  ⟨by decide,
    data_feed_alloc_fail_unchanged cfgW mW [3, 4, 5, 6, 7, 8, 9, 10] 4 false
      (by decide)⟩

/-- Witness for C8: the fold/no-fold comparison at a concrete batch. -/
theorem data_feed_fold_distinct_witness :
    (gv1_data_feed cfgW mW [3, 4, 5, 6] 2 true).2 = none ∧
      ((gv1_data_feed cfgW mW [3, 4, 5, 6] 2 true).1 =
          (gv1_data_feed cfgW mW [3, 4, 5, 6] 2 false).1 ↔
        ∀ v ∈ batchVecs mW.rank 2 [3, 4, 5, 6], cfgW.foldFn v = v) :=
  ⟨by decide, data_feed_fold_distinct cfgW mW [3, 4, 5, 6] 2 (by decide)⟩

/-- Witness for C3: a query with `top = 5` over the two-vector manifold
`mzW`. -/
theorem manifold_fold_full_coverage_witness :
    mzW.size ≤ 5 ∧
      ((queryPairs mzW [] 5).length = mzW.size ∧
        ((queryPairs mzW [] 5).map Prod.fst).Perm (List.range mzW.size)) :=
  ⟨by decide, manifold_fold_full_coverage mzW [] 5 (by decide)⟩

/-- Witness for C9: a query with `top = 3` over the two-vector manifold
`mzW`. -/
theorem manifold_fold_sentinel_padding_witness :
    mzW.size < 3 ∧
      ((queryBuffers mzW [] 3).length = 3 ∧
        (queryBuffers mzW [] 3).drop mzW.size =
          List.replicate (3 - mzW.size) sentinelSlot) :=
  ⟨by decide, manifold_fold_sentinel_padding mzW [] 3 (by decide)⟩

/-- Witness for C5: a query against the empty manifold `meW`. -/
theorem manifold_fold_empty_witness :
    meW.size = 0 ∧
      gv1_manifold_fold cfgW meW [1, 2] 3 =
        Except.ok (List.replicate 3 sentinelSlot, 0) :=
  ⟨by decide, manifold_fold_empty cfgW meW [1, 2] 3 (by decide)⟩

/-- Witness for C4: two identical queries against `mW`. -/
theorem manifold_fold_deterministic_witness :
    mW = mW ∧ ([1, 2] : Vec) = [1, 2] ∧ (2 : Nat) = 2 ∧
      gv1_manifold_fold cfgW mW [1, 2] 2 = gv1_manifold_fold cfgW mW [1, 2] 2 :=
  ⟨rfl, rfl, rfl,
    manifold_fold_deterministic cfgW mW mW [1, 2] [1, 2] 2 2 rfl rfl rfl⟩

/-- Witness for C7: an audit of `mW` referencing the out-of-range id 5. -/
theorem topology_audit_invalid_reference_witness :
    (2 : Nat) ≠ 0 ∧ 2 ≤ ([0, 5] : List Nat).length ∧
      (∃ i ∈ ([0, 5] : List Nat).take 2, mW.size ≤ i) ∧
      gv1_topology_audit cfgW mW [0, 5] 2 =
        (mW, Except.error GvError.InvalidReference) :=
  ⟨by decide, by decide, by decide,
    topology_audit_invalid_reference cfgW mW [0, 5] 2 (by decide) (by decide)
      (by decide)⟩

end GrainVDB
